import Mathlib

/-!
Shallow embedding of the finEdSkywalker core (Go) in Lean 4:

* data model of the `finance` package (`models.go`);
* the scorecard engine (`internal/calculator/scorecard.go`);
* the DCF valuation engine (`internal/calculator/dcf.go`);
* the aggregator `StockService.GetCompanyData` (`internal/handlers`);
* the ticker → CIK resolver of `internal/datasources/edgar.go`.

Go `float64` fields are embedded as `ℚ` (the verified claims are about
branch structure and exact comparisons, not floating-point rounding);
Go `time.Time` values are embedded as `Nat` instants.  External HTTP
calls are passed in as explicit `Except`-valued results.  Division by
zero yields `0` in `ℚ` where Go would yield `Inf`/`NaN`; no verified
claim distinguishes the two (no branch in the embedded code compares a
value produced by a division whose divisor may be zero).
-/

namespace FinEd

/-- Embeds `finance.StockQuote`. -/
structure StockQuote where
  Ticker : String
  CompanyName : String
  CurrentPrice : ℚ
  Change : ℚ
  ChangePercent : ℚ
  High : ℚ
  Low : ℚ
  Open : ℚ
  PreviousClose : ℚ
  Volume : Int
  MarketCap : ℚ
  Timestamp : Nat
  deriving DecidableEq, Repr

/-- Embeds `finance.FinancialStatement`. -/
structure FinancialStatement where
  Revenue : ℚ
  NetIncome : ℚ
  EPS : ℚ
  TotalAssets : ℚ
  TotalLiabilities : ℚ
  TotalDebt : ℚ
  ShareholdersEquity : ℚ
  OperatingCashFlow : ℚ
  CapEx : ℚ
  FreeCashFlow : ℚ
  Period : String
  FiscalYear : Nat
  ReportDate : Nat
  FilingDate : Nat
  deriving DecidableEq, Repr

/-- Embeds `finance.HistoricalMetrics`. -/
structure HistoricalMetrics where
  PERatios : List ℚ
  PERatioAvg5Year : ℚ
  ROEHistory : List ℚ
  FCFYieldHistory : List ℚ
  deriving DecidableEq, Repr

/-- Embeds `finance.MetricRating` (the four string constants GREEN/YELLOW/RED/N-A). -/
inductive MetricRating where
  | green
  | yellow
  | red
  | na
  deriving DecidableEq, Repr

/-- Embeds `finance.FundamentalMetric`. -/
structure FundamentalMetric where
  Current : ℚ
  FiveYearAvg : Option ℚ
  Rating : MetricRating
  Message : String
  Available : Bool
  deriving DecidableEq, Repr

/-- Embeds `finance.FundamentalScorecard`. -/
structure FundamentalScorecard where
  PERatio : FundamentalMetric
  ForwardPE : FundamentalMetric
  DebtToEquity : FundamentalMetric
  FCFYield : FundamentalMetric
  PEGRatio : FundamentalMetric
  ROE : FundamentalMetric
  OverallScore : String
  Summary : String
  deriving DecidableEq, Repr

/-- Embeds `finance.DCFAssumptions`. -/
structure DCFAssumptions where
  RevenueGrowthRate : ℚ
  ProfitMargin : ℚ
  FCFMargin : ℚ
  DiscountRate : ℚ
  TerminalGrowthRate : ℚ
  ProjectionYears : Nat
  Source : String
  deriving DecidableEq, Repr

/-- Embeds `finance.DCFProjection`. -/
structure DCFProjection where
  Year : Nat
  Revenue : ℚ
  NetIncome : ℚ
  FreeCashFlow : ℚ
  DiscountFactor : ℚ
  PresentValue : ℚ
  deriving DecidableEq, Repr

/-- Embeds `finance.ValuationResult`. -/
structure ValuationResult where
  FairValuePerShare : ℚ
  CurrentPrice : ℚ
  UpsidePercent : ℚ
  Model : String
  Assumptions : DCFAssumptions
  Projections : List DCFProjection
  TerminalValue : ℚ
  EnterpriseValue : ℚ
  SharesOutstanding : ℚ
  deriving DecidableEq, Repr

/-- Embeds `finance.CompanyData` (pointer-valued fields become `Option`). -/
structure CompanyData where
  Ticker : String
  CompanyName : String
  CIK : String
  FIGI : String
  Quote : Option StockQuote
  LatestFinancials : Option FinancialStatement
  HistoricalData : Option HistoricalMetrics
  SharesOutstanding : ℚ
  deriving DecidableEq, Repr

/-- Embeds `finance.DataSourceError`. -/
structure DataSourceError where
  Source : String
  Message : String
  Code : String
  deriving DecidableEq, Repr

/-- A Go `error` value in the resolver: either a plain `fmt.Errorf` error
(as produced by `loadTickerMap`) or a `finance.DataSourceError`. -/
inductive GoError where
  | plain (msg : String)
  | dataSource (e : DataSourceError)
  deriving DecidableEq, Repr

/-- Models Go `strings.ToUpper` (ASCII uppercasing of each character;
structurally recursive so that concrete runs reduce definitionally). -/
def toUpperStr (s : String) : String :=
  ⟨s.data.map Char.toUpper⟩

/-- Rendering of a numeric figure inside a message string; models the
`%.2f`/`%.0f` verbs of `fmt.Sprintf` (exact rendering of a `ℚ`). -/
def fq (x : ℚ) : String :=
  toString x.num ++ "/" ++ toString x.den

/-- The Go zero value `FundamentalMetric{Available: false, Rating: RatingNA}`. -/
def emptyMetric : FundamentalMetric :=
  { Current := 0, FiveYearAvg := none, Rating := .na, Message := "", Available := false }

/-- The general-benchmark arm of `calculatePERatio` (the `else` branch used
when there is no positive 5-year-average history). -/
def peGeneralBenchmark (metric : FundamentalMetric) (peRatio : ℚ) : FundamentalMetric :=
  if peRatio < 15 then
    { metric with Rating := .green, Message := "P/E of " ++ fq peRatio ++ " suggests good value" }
  else if 30 < peRatio then
    { metric with Rating := .red, Message := "P/E of " ++ fq peRatio ++ " is relatively high" }
  else
    { metric with Rating := .yellow, Message := "P/E of " ++ fq peRatio ++ " is moderate" }

/-- Embeds `calculator.calculatePERatio`. -/
def calculatePERatio (data : CompanyData) : FundamentalMetric :=
  let metric := emptyMetric
  match data.Quote, data.LatestFinancials with
  | some quote, some fin =>
    if fin.NetIncome ≤ 0 ∨ data.SharesOutstanding ≤ 0 then
      { metric with Message := "Company has negative or zero earnings", Rating := .red }
    else
      let eps := fin.NetIncome / (data.SharesOutstanding * 1000000)
      let peRatio := quote.CurrentPrice / eps
      let metric := { metric with Current := peRatio, Available := true }
      match data.HistoricalData with
      | some hist =>
        if 0 < hist.PERatioAvg5Year then
          let fiveYearAvg := hist.PERatioAvg5Year
          let metric := { metric with FiveYearAvg := some fiveYearAvg }
          if peRatio < fiveYearAvg * (9/10) then
            { metric with
              Rating := .green
              Message := "P/E (" ++ fq peRatio ++ ") is below 5-year average (" ++
                fq fiveYearAvg ++ ") - potentially undervalued" }
          else if fiveYearAvg * (12/10) < peRatio then
            { metric with
              Rating := .red
              Message := "P/E (" ++ fq peRatio ++ ") is above 5-year average (" ++
                fq fiveYearAvg ++ ") - potentially overvalued" }
          else
            { metric with
              Rating := .yellow
              Message := "P/E (" ++ fq peRatio ++ ") is near 5-year average (" ++
                fq fiveYearAvg ++ ")" }
        else
          peGeneralBenchmark metric peRatio
      | none => peGeneralBenchmark metric peRatio
  | _, _ => { metric with Message := "Insufficient data to calculate P/E ratio" }

/-- Embeds `calculator.calculateDebtToEquity`. -/
def calculateDebtToEquity (data : CompanyData) : FundamentalMetric :=
  let metric := emptyMetric
  match data.LatestFinancials with
  | none => { metric with Message := "No financial data available" }
  | some fin =>
    if fin.ShareholdersEquity ≤ 0 then
      { metric with Message := "Company has negative or zero equity", Rating := .red }
    else
      let debtToEquity := fin.TotalDebt / fin.ShareholdersEquity
      let metric := { metric with Current := debtToEquity, Available := true }
      if debtToEquity < 1/2 then
        { metric with
          Rating := .green
          Message := "Excellent debt levels (" ++ fq debtToEquity ++ ") - very safe" }
      else if debtToEquity < 1 then
        { metric with
          Rating := .yellow
          Message := "Moderate debt levels (" ++ fq debtToEquity ++ ") - acceptable" }
      else if debtToEquity < 2 then
        { metric with
          Rating := .red
          Message := "High debt levels (" ++ fq debtToEquity ++ ") - risky" }
      else
        { metric with
          Rating := .red
          Message := "Very high debt levels (" ++ fq debtToEquity ++ ") - concerning" }

/-- Embeds `calculator.calculateFCFYield`. -/
def calculateFCFYield (data : CompanyData) : FundamentalMetric :=
  let metric := emptyMetric
  match data.Quote, data.LatestFinancials with
  | some quote, some fin =>
    if quote.MarketCap ≤ 0 then
      { metric with Message := "Market cap not available" }
    else
      let fcfYield := fin.FreeCashFlow / quote.MarketCap * 100
      let metric := { metric with Current := fcfYield, Available := true }
      if 8 < fcfYield then
        { metric with
          Rating := .green
          Message := "Excellent FCF yield (" ++ fq fcfYield ++ "%) - strong cash generation" }
      else if 4 < fcfYield then
        { metric with
          Rating := .yellow
          Message := "Good FCF yield (" ++ fq fcfYield ++ "%)" }
      else if 0 < fcfYield then
        { metric with
          Rating := .red
          Message := "Low FCF yield (" ++ fq fcfYield ++ "%) - limited cash generation" }
      else
        { metric with
          Rating := .red
          Message := "Negative FCF yield (" ++ fq fcfYield ++ "%) - burning cash" }
  | _, _ => { metric with Message := "Insufficient data to calculate FCF Yield" }

/-- Embeds `calculator.calculatePEGRatio`. -/
def calculatePEGRatio (data : CompanyData) : FundamentalMetric :=
  let metric := emptyMetric
  let peMetric := calculatePERatio data
  if !peMetric.Available then
    { metric with Message := "P/E ratio not available" }
  else
    let growthRate : ℚ := 8
    if growthRate ≤ 0 then
      { metric with Message := "Growth rate not available or negative" }
    else
      let pegRatio := peMetric.Current / growthRate
      let metric := { metric with Current := pegRatio, Available := true }
      let metric :=
        if pegRatio < 1 then
          { metric with
            Rating := .green
            Message := "PEG of " ++ fq pegRatio ++ " suggests undervalued relative to growth" }
        else if pegRatio < 3/2 then
          { metric with
            Rating := .yellow
            Message := "PEG of " ++ fq pegRatio ++ " is fairly valued" }
        else
          { metric with
            Rating := .red
            Message := "PEG of " ++ fq pegRatio ++ " suggests overvalued relative to growth" }
      { metric with Message := metric.Message ++ " (assuming " ++ fq growthRate ++ "% growth)" }

/-- Embeds `calculator.calculateROE`. -/
def calculateROE (data : CompanyData) : FundamentalMetric :=
  let metric := emptyMetric
  match data.LatestFinancials with
  | none => { metric with Message := "No financial data available" }
  | some fin =>
    if fin.ShareholdersEquity ≤ 0 then
      { metric with Message := "Company has negative or zero equity", Rating := .red }
    else
      let roe := fin.NetIncome / fin.ShareholdersEquity * 100
      let metric := { metric with Current := roe, Available := true }
      if 20 < roe then
        { metric with
          Rating := .green
          Message := "Excellent ROE (" ++ fq roe ++ "%) - highly efficient management" }
      else if 15 < roe then
        { metric with
          Rating := .yellow
          Message := "Good ROE (" ++ fq roe ++ "%) - solid management" }
      else if 0 < roe then
        { metric with
          Rating := .red
          Message := "Low ROE (" ++ fq roe ++ "%) - poor capital efficiency" }
      else
        { metric with
          Rating := .red
          Message := "Negative ROE (" ++ fq roe ++ "%) - losing money" }

/-- Embeds `calculator.calculateOverallScore`: the roll-up over the five metrics. -/
def calculateOverallScore (scorecard : FundamentalScorecard) : String × String :=
  let metrics := [scorecard.PERatio, scorecard.DebtToEquity, scorecard.FCFYield,
    scorecard.PEGRatio, scorecard.ROE]
  let avail := metrics.filter (fun m => m.Available)
  let totalMetrics := avail.length
  let greenCount := (avail.filter (fun m => m.Rating == MetricRating.green)).length
  let yellowCount := (avail.filter (fun m => m.Rating == MetricRating.yellow)).length
  let redCount := (avail.filter (fun m => m.Rating == MetricRating.red)).length
  if totalMetrics = 0 then
    ("0/5 metrics available", "Insufficient data for analysis")
  else
    let healthyCount := greenCount + yellowCount
    let score := toString healthyCount ++ "/" ++ toString totalMetrics ++ " metrics healthy"
    let percentage : ℚ := (greenCount : ℚ) / (totalMetrics : ℚ) * 100
    let summary :=
      if 60 ≤ percentage then ("Strong fundamentals - Good investment candidate")
      else if 40 ≤ percentage then ("Mixed fundamentals - Proceed with caution")
      else ("Weak fundamentals - High risk")
    let summary :=
      if totalMetrics / 2 < redCount then
        "Concerning fundamentals - Avoid or investigate further"
      else summary
    (score, summary)

/-- Embeds `calculator.CalculateScorecard`. -/
def CalculateScorecard (companyData : CompanyData) : FundamentalScorecard :=
  let peRatio := calculatePERatio companyData
  let debtToEquity := calculateDebtToEquity companyData
  let fcfYield := calculateFCFYield companyData
  let pegRatio := calculatePEGRatio companyData
  let roe := calculateROE companyData
  let pre : FundamentalScorecard :=
    { PERatio := peRatio, ForwardPE := emptyMetric, DebtToEquity := debtToEquity,
      FCFYield := fcfYield, PEGRatio := pegRatio, ROE := roe,
      OverallScore := "", Summary := "" }
  let overall := calculateOverallScore pre
  { pre with OverallScore := overall.1, Summary := overall.2 }

/-- Embeds `calculator.DCFInput` (user overrides; `*float64` fields become `Option ℚ`). -/
structure DCFInput where
  RevenueGrowthRate : Option ℚ
  ProfitMargin : Option ℚ
  FCFMargin : Option ℚ
  DiscountRate : Option ℚ
  TerminalGrowthRate : Option ℚ
  deriving DecidableEq, Repr

/-- The seed record of `buildAssumptions`
(`DCFAssumptions{ProjectionYears: 5, Source: "defaults"}`; the remaining
fields are Go zero values). -/
def initialAssumptions : DCFAssumptions :=
  { RevenueGrowthRate := 0, ProfitMargin := 0, FCFMargin := 0, DiscountRate := 0,
    TerminalGrowthRate := 0, ProjectionYears := 5, Source := "defaults" }

/-- The user-override block of `buildAssumptions`
(`if input != nil { ... }`): each supplied field overwrites the seed; only
a supplied revenue growth rate sets `Source` to "user_input". -/
def applyDCFInput (assumptions : DCFAssumptions) (input : Option DCFInput) : DCFAssumptions :=
  match input with
  | none => assumptions
  | some inp =>
    let assumptions :=
      match inp.RevenueGrowthRate with
      | some g => { assumptions with RevenueGrowthRate := g, Source := "user_input" }
      | none => assumptions
    let assumptions :=
      match inp.ProfitMargin with
      | some m => { assumptions with ProfitMargin := m }
      | none => assumptions
    let assumptions :=
      match inp.FCFMargin with
      | some m => { assumptions with FCFMargin := m }
      | none => assumptions
    let assumptions :=
      match inp.DiscountRate with
      | some r => { assumptions with DiscountRate := r }
      | none => assumptions
    match inp.TerminalGrowthRate with
    | some g => { assumptions with TerminalGrowthRate := g }
    | none => assumptions

/-- The `assumptions.RevenueGrowthRate == 0` default block of
`buildAssumptions`. -/
def applyGrowthDefault (assumptions : DCFAssumptions) : DCFAssumptions :=
  if assumptions.RevenueGrowthRate = 0 then
    { assumptions with
      RevenueGrowthRate := 8/100
      Source := if assumptions.Source = "user_input" then assumptions.Source else ("defaults") }
  else assumptions

/-- The `assumptions.ProfitMargin == 0` default block of
`buildAssumptions`: historical margin when computable and in (0,1), else
the fixed 15% default. -/
def applyMarginDefault (data : CompanyData) (assumptions : DCFAssumptions) : DCFAssumptions :=
  if assumptions.ProfitMargin = 0 then
    match data.LatestFinancials with
    | some fin =>
      if 0 < fin.Revenue then
        let historicalMargin := fin.NetIncome / fin.Revenue
        if 0 < historicalMargin ∧ historicalMargin < 1 then
          { assumptions with ProfitMargin := historicalMargin }
        else
          { assumptions with ProfitMargin := 15/100 }
      else
        { assumptions with ProfitMargin := 15/100 }
    | none => { assumptions with ProfitMargin := 15/100 }
  else assumptions

/-- The `assumptions.FCFMargin == 0` default block of `buildAssumptions`:
historical FCF margin when computable and in (0,1), else the fixed 12%
default. -/
def applyFCFMarginDefault (data : CompanyData) (assumptions : DCFAssumptions) : DCFAssumptions :=
  if assumptions.FCFMargin = 0 then
    match data.LatestFinancials with
    | some fin =>
      if 0 < fin.Revenue ∧ 0 < fin.FreeCashFlow then
        let historicalFCFMargin := fin.FreeCashFlow / fin.Revenue
        if 0 < historicalFCFMargin ∧ historicalFCFMargin < 1 then
          { assumptions with FCFMargin := historicalFCFMargin }
        else
          { assumptions with FCFMargin := 12/100 }
      else
        { assumptions with FCFMargin := 12/100 }
    | none => { assumptions with FCFMargin := 12/100 }
  else assumptions

/-- The `assumptions.DiscountRate == 0` default block of
`buildAssumptions` (10% fixed default). -/
def applyDiscountDefault (assumptions : DCFAssumptions) : DCFAssumptions :=
  if assumptions.DiscountRate = 0 then
    { assumptions with DiscountRate := 10/100 }
  else assumptions

/-- The `assumptions.TerminalGrowthRate == 0` default block of
`buildAssumptions` (2.5% fixed default). -/
def applyTerminalDefault (assumptions : DCFAssumptions) : DCFAssumptions :=
  if assumptions.TerminalGrowthRate = 0 then
    { assumptions with TerminalGrowthRate := 25/1000 }
  else assumptions

/-- Embeds `calculator.buildAssumptions` (`dcf.go`): the sequential blocks of the
Go function, composed in source order.  The `input` pointer becomes
`Option DCFInput`. -/
def buildAssumptions (data : CompanyData) (input : Option DCFInput) : DCFAssumptions :=
  applyTerminalDefault (applyDiscountDefault (applyFCFMarginDefault data
    (applyMarginDefault data (applyGrowthDefault (applyDCFInput initialAssumptions input)))))

/-- Agreement of two assumption records on every field except the
provenance tag (proof vocabulary for the assumption-building lemmas). -/
def sameNumerics (a b : DCFAssumptions) : Prop :=
  a.RevenueGrowthRate = b.RevenueGrowthRate ∧ a.ProfitMargin = b.ProfitMargin ∧
  a.FCFMargin = b.FCFMargin ∧ a.DiscountRate = b.DiscountRate ∧
  a.TerminalGrowthRate = b.TerminalGrowthRate ∧ a.ProjectionYears = b.ProjectionYears

/-- Embeds `calculator.projectCashFlows`: the 5-year projection loop. -/
def projectCashFlows (financials : FinancialStatement) (assumptions : DCFAssumptions) :
    List DCFProjection :=
  let currentRevenue := financials.Revenue
  (List.range assumptions.ProjectionYears).map fun i =>
    let year := i + 1
    let projectedRevenue := currentRevenue * (1 + assumptions.RevenueGrowthRate) ^ year
    let projectedNetIncome := projectedRevenue * assumptions.ProfitMargin
    let projectedFCF := projectedRevenue * assumptions.FCFMargin
    let discountFactor := (1 + assumptions.DiscountRate) ^ year
    let presentValue := projectedFCF / discountFactor
    { Year := year, Revenue := projectedRevenue, NetIncome := projectedNetIncome,
      FreeCashFlow := projectedFCF, DiscountFactor := discountFactor,
      PresentValue := presentValue }

/-- Embeds `calculator.calculateTerminalValue`: perpetuity growth model. -/
def calculateTerminalValue (projections : List DCFProjection)
    (assumptions : DCFAssumptions) : ℚ :=
  match projections.getLast? with
  | none => 0
  | some last =>
    let lastYearFCF := last.FreeCashFlow
    let terminalFCF := lastYearFCF * (1 + assumptions.TerminalGrowthRate)
    terminalFCF / (assumptions.DiscountRate - assumptions.TerminalGrowthRate)

/-- Embeds `calculator.CalculateDCF`: the valuation entry point; errors carry the
Go error messages. -/
def CalculateDCF (companyData : CompanyData) (input : Option DCFInput) :
    Except String ValuationResult :=
  match companyData.LatestFinancials with
  | none => .error ("no financial data available for DCF calculation")
  | some financials =>
    if companyData.SharesOutstanding ≤ 0 then
      .error ("shares outstanding not available")
    else
      let assumptions := buildAssumptions companyData input
      let projections := projectCashFlows financials assumptions
      let terminalValue := calculateTerminalValue projections assumptions
      let pvOfCashFlows := (projections.map fun p => p.PresentValue).sum
      let terminalDiscountFactor := (1 + assumptions.DiscountRate) ^ assumptions.ProjectionYears
      let pvOfTerminalValue := terminalValue / terminalDiscountFactor
      let enterpriseValue := pvOfCashFlows + pvOfTerminalValue
      let equityValue := enterpriseValue
      let fairValuePerShare := equityValue / (companyData.SharesOutstanding * 1000000)
      let currentPrice :=
        match companyData.Quote with
        | some quote => quote.CurrentPrice
        | none => 0
      let upsidePercent :=
        if 0 < currentPrice then (fairValuePerShare - currentPrice) / currentPrice * 100
        else 0
      .ok { FairValuePerShare := fairValuePerShare, CurrentPrice := currentPrice,
            UpsidePercent := upsidePercent, Model := "DCF", Assumptions := assumptions,
            Projections := projections, TerminalValue := terminalValue,
            EnterpriseValue := enterpriseValue,
            SharesOutstanding := companyData.SharesOutstanding }

/-- The fields of the Finnhub profile response the aggregator reads
(`finnhubProfileResponse`). -/
structure Profile where
  Name : String
  MarketCap : ℚ
  SharesOut : ℚ
  deriving DecidableEq, Repr

/-- Embeds `StockService.GetCompanyData`: the aggregator.  The four provider calls
(quote, profile, financial statement, OpenFIGI mapping) are passed in as
their `Except`-valued results; the Go method never returns an error. -/
def GetCompanyData (ticker : String)
    (quoteRes : Except String StockQuote)
    (profileRes : Except String Profile)
    (finRes : Except String FinancialStatement)
    (figiRes : Except String (String × String)) :
    CompanyData × List String :=
  let warnings : List String := []
  let companyData : CompanyData :=
    { Ticker := (toUpperStr ticker), CompanyName := "", CIK := "", FIGI := "",
      Quote := none, LatestFinancials := none, HistoricalData := none,
      SharesOutstanding := 0 }
  let step1 :=
    match quoteRes with
    | .error e => (companyData, warnings ++ ["Price data unavailable: " ++ e])
    | .ok quote => ({ companyData with Quote := some quote }, warnings)
  let companyData := step1.1
  let warnings := step1.2
  let step2 :=
    match profileRes with
    | .error e => (companyData, warnings ++ ["Company profile unavailable: " ++ e])
    | .ok profile =>
      let companyData := { companyData with CompanyName := profile.Name }
      let companyData :=
        match companyData.Quote with
        | some quote =>
          { companyData with
            Quote := some { quote with
              CompanyName := profile.Name
              MarketCap := profile.MarketCap * 1000000 } }
        | none => companyData
      ({ companyData with SharesOutstanding := profile.SharesOut }, warnings)
  let companyData := step2.1
  let warnings := step2.2
  let step3 :=
    match finRes with
    | .error e => (companyData, warnings ++ ["Fundamental data unavailable: " ++ e])
    | .ok financials => ({ companyData with LatestFinancials := some financials }, warnings)
  let companyData := step3.1
  let warnings := step3.2
  let companyData :=
    match figiRes with
    | .error _ => companyData
    | .ok fn =>
      let companyData := { companyData with FIGI := fn.1 }
      if companyData.CompanyName = "" then
        { companyData with CompanyName := fn.2 }
      else companyData
  let companyData :=
    if companyData.CompanyName = "" then
      { companyData with CompanyName := ticker }
    else companyData
  (companyData, warnings)

/-- Embeds `tickerMapCacheTTL = 24 * time.Hour`, in seconds. -/
def tickerMapCacheTTL : Nat := 24 * 60 * 60

/-- The mutable state of `EDGARClient`: the per-ticker memo cache, the bulk
ticker → CIK catalog (lazy, `nil` until first load), and its load instant.
Go maps become association lists whose most recent insertion wins. -/
structure EDGARState where
  cikCache : List (String × String)
  tickerMapCache : Option (List (String × String))
  tickerMapLoadedAt : Nat
  deriving DecidableEq, Repr

/-- The refresh condition of `ensureTickerMapFresh`: the catalog is absent
or older than the TTL.  `loadTickerMap` (the bulk network fetch) is invoked
exactly when this holds. -/
def needsRefreshB (s : EDGARState) (now : Nat) : Bool :=
  s.tickerMapCache.isNone || decide (tickerMapCacheTTL < now - s.tickerMapLoadedAt)

/-- Embeds `EDGARClient.ensureTickerMapFresh`.  The outcome of the bulk fetch
(`loadTickerMap`) is passed in as `fetch`; it is consulted only when
`needsRefreshB` holds.  Returns the new state and the Go error (if any). -/
def ensureTickerMapFresh (s : EDGARState) (now : Nat)
    (fetch : Except String (List (String × String))) : EDGARState × Option String :=
  if needsRefreshB s now then
    match fetch with
    | .ok tickerMap =>
      ({ s with tickerMapCache := some tickerMap, tickerMapLoadedAt := now }, none)
    | .error e =>
      if s.tickerMapCache.isSome then (s, none)
      else (s, some e)
  else (s, none)

/-- The hardcoded `commonCIKs` static table of `getCIK`. -/
def commonCIKs : List (String × String) :=
  [("AAPL", "0000320193"), ("MSFT", "0000789019"), ("GOOGL", "0001652044"),
   ("GOOG", "0001652044"), ("AMZN", "0001018724"), ("TSLA", "0001318605"),
   ("META", "0001326801"), ("NVDA", "0001045810"), ("JPM", "0000019617"),
   ("V", "0001403161"), ("BAC", "0000070858"), ("WMT", "0000104169"),
   ("XOM", "0000034088"), ("UNH", "0000731766"), ("JNJ", "0000200406")]

/-- Embeds `EDGARClient.lookupCIKFromSEC`: lookup against the cached catalog (a
`nil` Go map looks up as empty). -/
def lookupCIKFromSEC (s : EDGARState) (ticker : String) : Except GoError String :=
  match (s.tickerMapCache.getD []).lookup ticker with
  | some cik => .ok cik
  | none =>
    .error (.dataSource
      { Source := "EDGAR", Message := "CIK not found for ticker " ++ ticker,
        Code := "CIK_NOT_FOUND" })

/-- Steps 2-4 of `EDGARClient.getCIK` (after the freshness step): memo
cache, static table, then catalog lookup; hits populate the memo cache.
`ticker` is already uppercased here. -/
def getCIKTiers (s : EDGARState) (ticker : String) : EDGARState × Except GoError String :=
  match s.cikCache.lookup ticker with
  | some cik => (s, .ok cik)
  | none =>
    match commonCIKs.lookup ticker with
    | some cik => ({ s with cikCache := (ticker, cik) :: s.cikCache }, .ok cik)
    | none =>
      match lookupCIKFromSEC s ticker with
      | .ok cik => ({ s with cikCache := (ticker, cik) :: s.cikCache }, .ok cik)
      | .error e => (s, .error e)

/-- Embeds `EDGARClient.getCIK`: uppercase, run the freshness step (its error is
ignored by the Go code — the `if err != nil` block is empty), then the
three lookup tiers. -/
def getCIK (s : EDGARState) (ticker : String) (now : Nat)
    (fetch : Except String (List (String × String))) : EDGARState × Except GoError String :=
  let t := (toUpperStr ticker)
  let s1 := (ensureTickerMapFresh s now fetch).1
  getCIKTiers s1 t

/-! Concrete sample values used by witnesses and counterexamples. -/

/-- A sample financial statement (revenue 100, net income 20, FCF 40). -/
def sampleFin : FinancialStatement :=
  ⟨100, 20, 0, 0, 0, 30, 60, 50, 10, 40, "2024-FY", 2024, 0, 0⟩

/-- A sample quote at price 50 with the given market cap. -/
def sampleQuote (mc : ℚ) : StockQuote :=
  ⟨"T", "", 50, 0, 0, 0, 0, 0, 0, 0, mc, 0⟩

/-- A sample Finnhub profile. -/
def sampleProfile : Profile := ⟨"Apple Inc.", 5, 16000⟩

/-! The claims. -/

/-- C1: for every combination of successes and failures of the four
provider calls, `GetCompanyData` returns a `CompanyData` whose `Ticker` is
the uppercased input ticker together with a warnings list (and no error —
the embedding is a total function), and the warnings list length equals
the number of failed calls among quote, profile and financial statement;
an OpenFIGI failure never contributes a warning. -/
theorem aggregate_partial_failure_semantics (ticker : String)
    (q : Except String StockQuote) (p : Except String Profile)
    (f : Except String FinancialStatement) (g : Except String (String × String)) :
    (GetCompanyData ticker q p f g).1.Ticker = (toUpperStr ticker) ∧
    (GetCompanyData ticker q p f g).2.length =
      ((if q.isOk then 0 else 1) + (if p.isOk then 0 else 1) +
        (if f.isOk then 0 else 1)) := by
  cases q <;> cases p <;> cases f <;> cases g <;>
    simp [GetCompanyData, Except.isOk, Except.toBool] <;> split_ifs <;> simp

/-- C6: the scorecard is total (a total Lean function by construction),
and for a `CompanyData` with `Quote`, `LatestFinancials` and
`HistoricalData` all unset, all five metrics report unavailable and the
summary is "Insufficient data for analysis" (the roll-up takes its
zero-computed-metrics branch, so no division by zero occurs). -/
theorem scorecard_total_all_missing (t n ck fg : String) (sh : ℚ) :
    (CalculateScorecard ⟨t, n, ck, fg, none, none, none, sh⟩).PERatio.Available = false ∧
    (CalculateScorecard ⟨t, n, ck, fg, none, none, none, sh⟩).DebtToEquity.Available = false ∧
    (CalculateScorecard ⟨t, n, ck, fg, none, none, none, sh⟩).FCFYield.Available = false ∧
    (CalculateScorecard ⟨t, n, ck, fg, none, none, none, sh⟩).PEGRatio.Available = false ∧
    (CalculateScorecard ⟨t, n, ck, fg, none, none, none, sh⟩).ROE.Available = false ∧
    (CalculateScorecard ⟨t, n, ck, fg, none, none, none, sh⟩).OverallScore =
      "0/5 metrics available" ∧
    (CalculateScorecard ⟨t, n, ck, fg, none, none, none, sh⟩).Summary =
      "Insufficient data for analysis" := by
  simp [CalculateScorecard, calculatePERatio, calculateDebtToEquity, calculateFCFYield,
    calculatePEGRatio, calculateROE, calculateOverallScore, emptyMetric]

/-- Lemma: the profit-margin default block changes only `ProfitMargin`. -/
theorem applyMarginDefault_source (data : CompanyData) (a : DCFAssumptions) :
    (applyMarginDefault data a).Source = a.Source ∧
    (applyMarginDefault data a).RevenueGrowthRate = a.RevenueGrowthRate ∧
    (applyMarginDefault data a).FCFMargin = a.FCFMargin ∧
    (applyMarginDefault data a).DiscountRate = a.DiscountRate ∧
    (applyMarginDefault data a).TerminalGrowthRate = a.TerminalGrowthRate ∧
    (applyMarginDefault data a).ProjectionYears = a.ProjectionYears := by
  unfold applyMarginDefault
  by_cases h : a.ProfitMargin = 0
  · rw [if_pos h]
    cases data.LatestFinancials with
    | none => simp
    | some fin =>
      dsimp only
      split_ifs <;> simp
  · rw [if_neg h]
    simp

/-- Lemma: the FCF-margin default block changes only `FCFMargin`. -/
theorem applyFCFMarginDefault_source (data : CompanyData) (a : DCFAssumptions) :
    (applyFCFMarginDefault data a).Source = a.Source ∧
    (applyFCFMarginDefault data a).RevenueGrowthRate = a.RevenueGrowthRate ∧
    (applyFCFMarginDefault data a).ProfitMargin = a.ProfitMargin ∧
    (applyFCFMarginDefault data a).DiscountRate = a.DiscountRate ∧
    (applyFCFMarginDefault data a).TerminalGrowthRate = a.TerminalGrowthRate ∧
    (applyFCFMarginDefault data a).ProjectionYears = a.ProjectionYears := by
  unfold applyFCFMarginDefault
  by_cases h : a.FCFMargin = 0
  · rw [if_pos h]
    cases data.LatestFinancials with
    | none => simp
    | some fin =>
      dsimp only
      split_ifs <;> simp
  · rw [if_neg h]
    simp

/-- Lemma: the discount-rate default block changes only `DiscountRate`. -/
theorem applyDiscountDefault_source (a : DCFAssumptions) :
    (applyDiscountDefault a).Source = a.Source ∧
    (applyDiscountDefault a).RevenueGrowthRate = a.RevenueGrowthRate ∧
    (applyDiscountDefault a).ProfitMargin = a.ProfitMargin ∧
    (applyDiscountDefault a).FCFMargin = a.FCFMargin ∧
    (applyDiscountDefault a).TerminalGrowthRate = a.TerminalGrowthRate ∧
    (applyDiscountDefault a).ProjectionYears = a.ProjectionYears := by
  unfold applyDiscountDefault
  split_ifs <;> simp

/-- Lemma: the terminal-growth default block changes only
`TerminalGrowthRate`. -/
theorem applyTerminalDefault_source (a : DCFAssumptions) :
    (applyTerminalDefault a).Source = a.Source ∧
    (applyTerminalDefault a).RevenueGrowthRate = a.RevenueGrowthRate ∧
    (applyTerminalDefault a).ProfitMargin = a.ProfitMargin ∧
    (applyTerminalDefault a).FCFMargin = a.FCFMargin ∧
    (applyTerminalDefault a).DiscountRate = a.DiscountRate ∧
    (applyTerminalDefault a).ProjectionYears = a.ProjectionYears := by
  unfold applyTerminalDefault
  split_ifs <;> simp

/-- Lemma: the override block sets the provenance tag to "user_input"
exactly when the revenue-growth-rate override is supplied. -/
theorem applyDCFInput_source (a : DCFAssumptions) (input : Option DCFInput) :
    (applyDCFInput a input).Source =
      if (input.bind DCFInput.RevenueGrowthRate).isSome then ("user_input")
      else a.Source := by
  rcases input with _ | ⟨g, pm, fm, dr, tg⟩
  · simp [applyDCFInput]
  · cases g <;> cases pm <;> cases fm <;> cases dr <;> cases tg <;> simp [applyDCFInput]

/-- Lemma: the growth default block preserves a provenance tag that is
either "user_input" or "defaults". -/
theorem applyGrowthDefault_source (a : DCFAssumptions)
    (h : a.Source = "user_input" ∨ a.Source = "defaults") :
    (applyGrowthDefault a).Source = a.Source := by
  unfold applyGrowthDefault
  rcases h with h | h <;> split_ifs <;> simp [h]

/-- C7 counterexample: supplying only the discount-rate override (a user
override field) leaves the provenance tag at "defaults", contradicting the
claim that any supplied override field makes it "user_input". -/
theorem source_tag_any_override_cex :
    (buildAssumptions ⟨"T", "", "", "", none, none, none, 0⟩
      (some ⟨none, none, none, some (2/10), none⟩)).Source = "defaults" ∧
    (buildAssumptions ⟨"T", "", "", "", none, none, none, 0⟩
      (some ⟨none, none, none, some (2/10), none⟩)).Source ≠ "user_input" := by
  have h : (buildAssumptions ⟨"T", "", "", "", none, none, none, 0⟩
      (some ⟨none, none, none, some (2/10), none⟩)).Source = "defaults" := by
    unfold buildAssumptions
    rw [(applyTerminalDefault_source _).1, (applyDiscountDefault_source _).1,
      (applyFCFMarginDefault_source _ _).1, (applyMarginDefault_source _ _).1]
    have hi : applyDCFInput initialAssumptions
        (some ⟨none, none, none, some (2/10), none⟩) =
        { initialAssumptions with DiscountRate := 2/10 } := by
      simp [applyDCFInput]
    rw [hi]
    simp [applyGrowthDefault, initialAssumptions]
  exact ⟨h, by rw [h]; decide⟩

/-- C7 amended: the provenance tag of the assumptions is "user_input" iff
the revenue-growth-rate override is supplied; the other four override
fields never affect the tag. -/
theorem source_tag_from_growth_override (data : CompanyData) (input : Option DCFInput) :
    (buildAssumptions data input).Source =
      if (input.bind DCFInput.RevenueGrowthRate).isSome then ("user_input")
      else ("defaults") := by
  have h0 := applyDCFInput_source initialAssumptions input
  have hor : (applyDCFInput initialAssumptions input).Source = "user_input" ∨
      (applyDCFInput initialAssumptions input).Source = "defaults" := by
    rw [h0]
    split_ifs <;> simp [initialAssumptions]
  unfold buildAssumptions
  rw [(applyTerminalDefault_source _).1, (applyDiscountDefault_source _).1,
    (applyFCFMarginDefault_source _ _).1, (applyMarginDefault_source _ _).1,
    applyGrowthDefault_source _ hor, h0]
  split_ifs <;> simp [initialAssumptions]

/-- Lemma: the growth default block maps records agreeing outside the
provenance tag to records agreeing outside the provenance tag. -/
theorem applyGrowthDefault_sameNumerics (a b : DCFAssumptions) (h : sameNumerics a b) :
    sameNumerics (applyGrowthDefault a) (applyGrowthDefault b) := by
  obtain ⟨x1, x2, x3, x4, x5, x6, sa⟩ := a
  obtain ⟨y1, y2, y3, y4, y5, y6, sb⟩ := b
  obtain ⟨h1, h2, h3, h4, h5, h6⟩ := h
  dsimp at h1 h2 h3 h4 h5 h6
  subst h1 h2 h3 h4 h5 h6
  unfold applyGrowthDefault sameNumerics
  split_ifs <;> simp_all

/-- Lemma: the profit-margin default block maps records agreeing outside
the provenance tag to records agreeing outside the provenance tag. -/
theorem applyMarginDefault_sameNumerics (data : CompanyData) (a b : DCFAssumptions)
    (h : sameNumerics a b) :
    sameNumerics (applyMarginDefault data a) (applyMarginDefault data b) := by
  obtain ⟨x1, x2, x3, x4, x5, x6, sa⟩ := a
  obtain ⟨y1, y2, y3, y4, y5, y6, sb⟩ := b
  obtain ⟨h1, h2, h3, h4, h5, h6⟩ := h
  dsimp at h1 h2 h3 h4 h5 h6
  subst h1 h2 h3 h4 h5 h6
  unfold applyMarginDefault sameNumerics
  cases data.LatestFinancials with
  | none =>
    dsimp only
    split_ifs <;> simp_all
  | some fin =>
    dsimp only
    split_ifs <;> simp_all

/-- Lemma: the FCF-margin default block maps records agreeing outside the
provenance tag to records agreeing outside the provenance tag. -/
theorem applyFCFMarginDefault_sameNumerics (data : CompanyData) (a b : DCFAssumptions)
    (h : sameNumerics a b) :
    sameNumerics (applyFCFMarginDefault data a) (applyFCFMarginDefault data b) := by
  obtain ⟨x1, x2, x3, x4, x5, x6, sa⟩ := a
  obtain ⟨y1, y2, y3, y4, y5, y6, sb⟩ := b
  obtain ⟨h1, h2, h3, h4, h5, h6⟩ := h
  dsimp at h1 h2 h3 h4 h5 h6
  subst h1 h2 h3 h4 h5 h6
  unfold applyFCFMarginDefault sameNumerics
  cases data.LatestFinancials with
  | none =>
    dsimp only
    split_ifs <;> simp_all
  | some fin =>
    dsimp only
    split_ifs <;> simp_all

/-- Lemma: the discount-rate default block maps records agreeing outside
the provenance tag to records agreeing outside the provenance tag. -/
theorem applyDiscountDefault_sameNumerics (a b : DCFAssumptions) (h : sameNumerics a b) :
    sameNumerics (applyDiscountDefault a) (applyDiscountDefault b) := by
  obtain ⟨x1, x2, x3, x4, x5, x6, sa⟩ := a
  obtain ⟨y1, y2, y3, y4, y5, y6, sb⟩ := b
  obtain ⟨h1, h2, h3, h4, h5, h6⟩ := h
  dsimp at h1 h2 h3 h4 h5 h6
  subst h1 h2 h3 h4 h5 h6
  unfold applyDiscountDefault sameNumerics
  split_ifs <;> simp_all

/-- Lemma: the terminal-growth default block maps records agreeing outside
the provenance tag to records agreeing outside the provenance tag. -/
theorem applyTerminalDefault_sameNumerics (a b : DCFAssumptions) (h : sameNumerics a b) :
    sameNumerics (applyTerminalDefault a) (applyTerminalDefault b) := by
  obtain ⟨x1, x2, x3, x4, x5, x6, sa⟩ := a
  obtain ⟨y1, y2, y3, y4, y5, y6, sb⟩ := b
  obtain ⟨h1, h2, h3, h4, h5, h6⟩ := h
  dsimp at h1 h2 h3 h4 h5 h6
  subst h1 h2 h3 h4 h5 h6
  unfold applyTerminalDefault sameNumerics
  split_ifs <;> simp_all

/-- C10: an all-zero override set produces, for every `CompanyData`, the
same assumptions as no overrides at all in every field except possibly the
provenance tag (each zero-valued field is replaced by its historical
derivation or fixed default). -/
theorem zero_overrides_equal_defaults (data : CompanyData) :
    (buildAssumptions data (some ⟨some 0, some 0, some 0, some 0, some 0⟩)).RevenueGrowthRate =
      (buildAssumptions data none).RevenueGrowthRate ∧
    (buildAssumptions data (some ⟨some 0, some 0, some 0, some 0, some 0⟩)).ProfitMargin =
      (buildAssumptions data none).ProfitMargin ∧
    (buildAssumptions data (some ⟨some 0, some 0, some 0, some 0, some 0⟩)).FCFMargin =
      (buildAssumptions data none).FCFMargin ∧
    (buildAssumptions data (some ⟨some 0, some 0, some 0, some 0, some 0⟩)).DiscountRate =
      (buildAssumptions data none).DiscountRate ∧
    (buildAssumptions data (some ⟨some 0, some 0, some 0, some 0, some 0⟩)).TerminalGrowthRate =
      (buildAssumptions data none).TerminalGrowthRate ∧
    (buildAssumptions data (some ⟨some 0, some 0, some 0, some 0, some 0⟩)).ProjectionYears =
      (buildAssumptions data none).ProjectionYears := by
  have hbase : sameNumerics
      (applyDCFInput initialAssumptions (some ⟨some 0, some 0, some 0, some 0, some 0⟩))
      (applyDCFInput initialAssumptions none) := by
    simp [applyDCFInput, initialAssumptions, sameNumerics]
  exact applyTerminalDefault_sameNumerics _ _ (applyDiscountDefault_sameNumerics _ _
    (applyFCFMarginDefault_sameNumerics data _ _ (applyMarginDefault_sameNumerics data _ _
      (applyGrowthDefault_sameNumerics _ _ hbase))))

/-- C5: `CalculateDCF` returns a result (no error) iff the financial
statement is present and shares outstanding is positive — so it errors
exactly when `LatestFinancials` is nil or `SharesOutstanding ≤ 0` — and a
missing quote does not cause an error: the upside percent is then 0. -/
theorem calculateDCF_preconditions (data : CompanyData) (input : Option DCFInput) :
    ((∃ r, CalculateDCF data input = Except.ok r) ↔
      (data.LatestFinancials.isSome ∧ 0 < data.SharesOutstanding)) ∧
    (data.Quote = none → ∀ r, CalculateDCF data input = Except.ok r →
      r.UpsidePercent = 0) := by
  constructor
  · cases hfin : data.LatestFinancials with
    | none => simp [CalculateDCF, hfin]
    | some f =>
      by_cases h : data.SharesOutstanding ≤ 0
      · simp [CalculateDCF, hfin, h]
      · simp [CalculateDCF, hfin, h]
        exact not_le.mp h
  · cases hfin : data.LatestFinancials with
    | none =>
      intro hq r hr
      simp [CalculateDCF, hfin] at hr
    | some f =>
      intro hq r hr
      by_cases h : data.SharesOutstanding ≤ 0
      · simp [CalculateDCF, hfin, h] at hr
      · simp only [CalculateDCF, hfin, h, if_false, hq] at hr
        injection hr with hr2
        rw [← hr2]
        simp

/-- Witness for C5 at a concrete input: a company with financials,
positive shares and no quote valuates successfully with zero upside. -/
theorem calculateDCF_preconditions_witness :
    (CalculateDCF ⟨"T", "", "", "", none, some sampleFin, none, 16000⟩ none).toOption.map
      ValuationResult.UpsidePercent = some 0 := by
  have h := calculateDCF_preconditions ⟨"T", "", "", "", none, some sampleFin, none, 16000⟩ none
  obtain ⟨r, hr⟩ := h.1.mpr (by norm_num)
  rw [hr]
  simp [Except.toOption, h.2 rfl r hr]

/-- C8 counterexample: with a present quote whose market cap is 0 and
financials present, the FCF-yield metric is reported unavailable with
rating N/A — not rated unfavorable as the claim states. -/
theorem fcf_yield_mcap_unavailable_cex :
    (calculateFCFYield
      ⟨"T", "", "", "", some (sampleQuote 0), some sampleFin, none, 16000⟩).Rating =
      MetricRating.na ∧
    (calculateFCFYield
      ⟨"T", "", "", "", some (sampleQuote 0), some sampleFin, none, 16000⟩).Rating ≠
      MetricRating.red ∧
    (calculateFCFYield
      ⟨"T", "", "", "", some (sampleQuote 0), some sampleFin, none, 16000⟩).Available =
      false := by
  refine ⟨?_, ?_, ?_⟩ <;> simp [calculateFCFYield, sampleQuote, sampleFin, emptyMetric]

/-- C8 amended: with quote and financials present, the FCF-yield metric is
unfavorable (RED) whenever the computed yield is ≤ 4, neutral (YELLOW) for
yields in (4, 8], favorable (GREEN) above 8; an unavailable market cap
(≤ 0) yields an unavailable metric rated N/A, not an unfavorable rating. -/
theorem fcf_yield_thresholds (data : CompanyData) (q : StockQuote) (f : FinancialStatement)
    (hq : data.Quote = some q) (hf : data.LatestFinancials = some f) :
    (q.MarketCap ≤ 0 →
      (calculateFCFYield data).Available = false ∧
      (calculateFCFYield data).Rating = MetricRating.na) ∧
    (0 < q.MarketCap →
      (calculateFCFYield data).Available = true ∧
      (calculateFCFYield data).Current = f.FreeCashFlow / q.MarketCap * 100 ∧
      (8 < f.FreeCashFlow / q.MarketCap * 100 →
        (calculateFCFYield data).Rating = MetricRating.green) ∧
      (4 < f.FreeCashFlow / q.MarketCap * 100 ∧ f.FreeCashFlow / q.MarketCap * 100 ≤ 8 →
        (calculateFCFYield data).Rating = MetricRating.yellow) ∧
      (f.FreeCashFlow / q.MarketCap * 100 ≤ 4 →
        (calculateFCFYield data).Rating = MetricRating.red)) := by
  constructor
  · intro hmc
    simp [calculateFCFYield, hq, hf, if_pos hmc, emptyMetric]
  · intro hmc
    have hmc' : ¬ q.MarketCap ≤ 0 := not_le.mpr hmc
    simp only [calculateFCFYield, hq, hf]
    rw [if_neg hmc']
    split_ifs with h8 h4 h0 <;>
      refine ⟨rfl, rfl, ?_, ?_, ?_⟩ <;> intro hy <;>
        first
          | rfl
          | (exfalso; obtain ⟨hy1, hy2⟩ := hy; linarith)
          | (exfalso; linarith)

/-- Witness for C8 at concrete inputs: market cap 400 and free cash flow
40 give a 10 percent yield rated GREEN. -/
theorem fcf_yield_thresholds_witness :
    (calculateFCFYield
      ⟨"T", "", "", "", some (sampleQuote 400), some sampleFin, none, 16000⟩).Rating =
      MetricRating.green := by
  have h := fcf_yield_thresholds
    ⟨"T", "", "", "", some (sampleQuote 400), some sampleFin, none, 16000⟩
    (sampleQuote 400) sampleFin rfl rfl
  exact ((h.2 (by norm_num [sampleQuote])).2.2.1 (by norm_num [sampleQuote, sampleFin]))

/-- C9: when the quote call fails and the profile call succeeds, the
profile's market-cap figure is discarded — the aggregator's entire output
is invariant under changing it — while shares outstanding and the company
name are still taken from the profile; consequently the FCF-yield metric
is unavailable (quote missing), regardless of profile data. -/
theorem quote_failure_discards_marketcap (ticker e : String) (p : Profile) (mc : ℚ)
    (f : Except String FinancialStatement) (g : Except String (String × String)) :
    GetCompanyData ticker (Except.error e) (Except.ok p) f g =
      GetCompanyData ticker (Except.error e) (Except.ok { p with MarketCap := mc }) f g ∧
    (GetCompanyData ticker (Except.error e) (Except.ok p) f g).1.Quote = none ∧
    (GetCompanyData ticker (Except.error e) (Except.ok p) f g).1.SharesOutstanding =
      p.SharesOut ∧
    (calculateFCFYield
      (GetCompanyData ticker (Except.error e) (Except.ok p) f g).1).Available = false ∧
    (calculateFCFYield
      (GetCompanyData ticker (Except.error e) (Except.ok p) f g).1).Rating =
      MetricRating.na ∧
    (p.Name ≠ "" →
      (GetCompanyData ticker (Except.error e) (Except.ok p) f g).1.CompanyName = p.Name) := by
  cases f <;> cases g <;>
    simp [GetCompanyData, calculateFCFYield, emptyMetric] <;> split_ifs <;> simp_all

/-- Witness for C9 at concrete inputs: the profile name survives a quote
failure. -/
theorem quote_failure_discards_marketcap_witness :
    (GetCompanyData ("aapl") (Except.error ("x")) (Except.ok sampleProfile)
      (Except.error ("y")) (Except.error ("z"))).1.CompanyName = "Apple Inc." := by
  have h := quote_failure_discards_marketcap ("aapl") ("x") sampleProfile 0
    (Except.error ("y")) (Except.error ("z"))
  exact h.2.2.2.2.2 (by simp [sampleProfile])

/-- Lemma: the freshness step never touches the per-ticker memo cache. -/
theorem ensureTickerMapFresh_cikCache (s : EDGARState) (now : Nat)
    (fetch : Except String (List (String × String))) :
    ((ensureTickerMapFresh s now fetch).1).cikCache = s.cikCache := by
  cases fetch <;> unfold ensureTickerMapFresh <;> split_ifs <;> simp

/-- C2: with a previously loaded catalog whose TTL has elapsed, a failed
refresh does not fail the lookup: `getCIK` equals the tier lookup (memo
cache, static table, then catalog) against the previous stale catalog —
exactly what a lookup before the failed refresh returns. -/
theorem resolver_stale_catalog_fallback (s : EDGARState) (m : List (String × String))
    (now : Nat) (t e : String) (hm : s.tickerMapCache = some m)
    (httl : tickerMapCacheTTL < now - s.tickerMapLoadedAt) :
    getCIK s t now (Except.error e) = getCIKTiers s (toUpperStr t) ∧
    getCIK s t now (Except.error e) = getCIK s t s.tickerMapLoadedAt (Except.error e) := by
  have h1 : ensureTickerMapFresh s now (Except.error e) = (s, none) := by
    simp [ensureTickerMapFresh, needsRefreshB, hm, httl]
  have h2 : ensureTickerMapFresh s s.tickerMapLoadedAt (Except.error e) = (s, none) := by
    simp [ensureTickerMapFresh, needsRefreshB, hm]
  constructor <;> simp [getCIK, h1, h2]

/-- Witness for C2 at a concrete stale state: catalog loaded at instant 0,
queried at instant 100000 (past the 86400-second TTL) with a failing
refresh. -/
theorem resolver_stale_catalog_fallback_witness :
    getCIK ⟨[], some [("ZZZZ", "0001234567")], 0⟩ "zzzz" 100000 (Except.error ("down")) =
      getCIKTiers ⟨[], some [("ZZZZ", "0001234567")], 0⟩ ((toUpperStr ("zzzz"))) :=
  (resolver_stale_catalog_fallback ⟨[], some [("ZZZZ", "0001234567")], 0⟩
    [("ZZZZ", "0001234567")] 100000 ("zzzz") ("down") rfl
    (by norm_num [tickerMapCacheTTL])).1

/-- C3 counterexample: on a cold process (no catalog ever loaded), a
lookup of the static-table ticker AAPL still triggers the bulk-catalog
fetch — the freshness step runs before the static-table check and its
refresh condition holds — even though the hardcoded CIK is returned. -/
theorem static_ticker_fetch_invoked_cex :
    needsRefreshB ⟨[], none, 0⟩ 0 = true ∧
    (getCIK ⟨[], none, 0⟩ "AAPL" 0 (Except.error ("down"))).2 =
      Except.ok ("0000320193") := by
  exact ⟨rfl, rfl⟩

/-- C3 amended: for a ticker of the hardcoded static table (with no memo
cache entry for it), `getCIK` returns the hardcoded 10-digit CIK
regardless of the catalog state, the current time and the bulk-fetch
outcome; the bulk fetch is however not avoided — it is attempted, before
the static-table check, whenever the catalog is absent or stale. -/
theorem static_ticker_resolution (s : EDGARState) (t : String) (now : Nat)
    (fetch : Except String (List (String × String))) (cik : String)
    (hstatic : commonCIKs.lookup (toUpperStr t) = some cik)
    (hmemo : s.cikCache.lookup (toUpperStr t) = none) :
    (getCIK s t now fetch).2 = Except.ok cik := by
  have hc := ensureTickerMapFresh_cikCache s now fetch
  simp [getCIK, getCIKTiers, hc, hmemo, hstatic]

/-- Witness for C3 at a concrete input: cold process, failing fetch, the
static ticker AAPL resolves to its hardcoded CIK. -/
theorem static_ticker_resolution_witness :
    (getCIK ⟨[], none, 0⟩ "AAPL" 86401 (Except.error ("down"))).2 =
      Except.ok ("0000320193") :=
  static_ticker_resolution ⟨[], none, 0⟩ "AAPL" 86401 (Except.error ("down"))
    "0000320193" rfl rfl

/-- C4 counterexample: cold resolver (no catalog), failed bulk fetch,
ticker absent from memo cache and static table — the surfaced error is
the catalog-lookup CIK-not-found error, not the fetch error. -/
theorem fetch_error_not_surfaced_cex :
    (getCIK ⟨[], none, 0⟩ "ZZZZ" 0 (Except.error ("network down"))).2 =
      Except.error (GoError.dataSource
        ⟨"EDGAR", "CIK not found for ticker ZZZZ", "CIK_NOT_FOUND"⟩) ∧
    (getCIK ⟨[], none, 0⟩ "ZZZZ" 0 (Except.error ("network down"))).2 ≠
      Except.error (GoError.plain ("network down")) := by
  refine ⟨rfl, ?_⟩
  intro h
  exact GoError.noConfusion (Except.error.inj h)

/-- C4 amended: with no catalog ever loaded and a failing bulk fetch,
`getCIK` for a ticker missing from the memo cache and the static table
fails — but with the CIK-not-found data-source error (the fetch error is
discarded by the empty `if err != nil` block), not the fetch error; a
memo-cache or static-table hit is returned with no error surfaced. -/
theorem no_catalog_fetch_failure (s : EDGARState) (t : String) (now : Nat) (e : String)
    (hcat : s.tickerMapCache = none) :
    (s.cikCache.lookup (toUpperStr t) = none → commonCIKs.lookup (toUpperStr t) = none →
      (getCIK s t now (Except.error e)).2 = Except.error (GoError.dataSource
        ⟨"EDGAR", "CIK not found for ticker " ++ (toUpperStr t), "CIK_NOT_FOUND"⟩)) ∧
    (∀ cik, s.cikCache.lookup (toUpperStr t) = some cik →
      (getCIK s t now (Except.error e)).2 = Except.ok cik) ∧
    (∀ cik, s.cikCache.lookup (toUpperStr t) = none → commonCIKs.lookup (toUpperStr t) = some cik →
      (getCIK s t now (Except.error e)).2 = Except.ok cik) := by
  have h1 : ensureTickerMapFresh s now (Except.error e) = (s, some e) := by
    simp [ensureTickerMapFresh, needsRefreshB, hcat]
  refine ⟨?_, ?_, ?_⟩
  · intro hmemo hstatic
    simp [getCIK, h1, getCIKTiers, hmemo, hstatic, lookupCIKFromSEC, hcat]
  · intro cik hmemo
    simp [getCIK, h1, getCIKTiers, hmemo]
  · intro cik hmemo hstatic
    simp [getCIK, h1, getCIKTiers, hmemo, hstatic]

/-- Witness for C4 at a concrete input: a memo-cache hit is returned with
no error even though the resolver is cold and the fetch fails. -/
theorem no_catalog_fetch_failure_witness :
    (getCIK ⟨[("MEMO", "0000000001")], none, 0⟩ ("memo") 0 (Except.error ("down"))).2 =
      Except.ok ("0000000001") :=
  (no_catalog_fetch_failure ⟨[("MEMO", "0000000001")], none, 0⟩ ("memo") 0 ("down")
    rfl).2.1 ("0000000001") rfl

end FinEd
